import Mathlib

/-!
Verification of the EasyWeb PayPal webhook settlement engine
(`paypal_webhook.py`, `model.py`) against its natural-language
specification.

The Python source is shallowly embedded:
* SQLAlchemy rows become Lean structures (`Beat`, `Bundle`, `BundleBeat`,
  `Order`), the database session becomes an explicit `DB` value, and the
  SQLite webhook-event cache becomes a `Cache` value.
* Monetary values (`Float` columns) are modelled as `ℚ`; timestamps as `ℤ`
  seconds.
* Network collaborators (PayPal order lookup, the reservation subsystem
  imported from `bot/db_manager`, and the bot notification gateway) are
  modelled as oracle inputs describing the outcome of each external call;
  outbound side effects (notification calls, reservation releases, the
  security-violation log file) are recorded in an `Effects` value.
* The `PAYMENT.CAPTURE.COMPLETED` branch of the `paypal_webhook` handler is
  embedded as the pure step function `processCapture`; `parse_payment_data`
  as `parsePaymentData`; the cleanup helpers as `removeExclusiveBeatByTitle`
  and `removeExclusiveBeatsFromBundle`; `notify_user_via_bot` as
  `notifyResult`.
-/

/-- A row of the `beats` table (`model.py`, class `Beat`); only the columns
read or written by the settlement path are modelled.  `is_exclusive` is an
`Integer` 0/1 column in the source, modelled as `Bool`. -/
structure Beat where
  id : ℕ
  title : String
  price : ℚ
  isExclusive : Bool
deriving DecidableEq, Repr

/-- A row of the `bundles` table (`model.py`, class `Bundle`). -/
structure Bundle where
  id : ℕ
  name : String
  individualPrice : ℚ
  bundlePrice : ℚ
  discountPercent : ℚ
  isActive : Bool
deriving DecidableEq, Repr

/-- A row of the `bundle_beats` association table (`model.py`,
class `BundleBeat`). -/
structure BundleBeat where
  bundleId : ℕ
  beatId : ℕ
deriving DecidableEq, Repr

/-- A row of the `orders` table (`model.py`, class `Order`).  `created_at`
is a timestamp in seconds, modelled as `ℤ`. -/
structure Order where
  transactionId : String
  telegramUserId : ℤ
  beatTitle : String
  payerEmail : String
  amount : ℚ
  currency : String
  token : Option String
  beatId : Option ℕ
  bundleId : Option ℕ
  orderType : String
  createdAt : ℤ
deriving DecidableEq, Repr

/-- The relational store visible to the webhook: the four tables the
settlement path touches. -/
structure DB where
  beats : List Beat
  bundles : List Bundle
  bundleBeats : List BundleBeat
  orders : List Order
deriving DecidableEq, Repr

/-- One row of the temp-file SQLite `webhook_events` dedup cache created
inside `paypal_webhook` (webhook_id, timestamp, transaction_id). -/
structure CacheEntry where
  webhookId : String
  timestamp : ℤ
  transactionId : String
deriving DecidableEq, Repr

/-- The dedup cache state. -/
structure Cache where
  entries : List CacheEntry
deriving DecidableEq, Repr

/-- A purchase-unit entry of a PayPal resource or order
(`purchase_units[i]`): only the two token fields the code reads. -/
structure PurchaseUnit where
  customId : Option String
  referenceId : Option String
deriving DecidableEq, Repr

/-- The fields of the PayPal capture `resource` dict that
`parse_payment_data` reads.  `orderId` is
`resource["supplementary_data"]["related_ids"]["order_id"]`. -/
structure Resource where
  customId : Option String
  referenceId : Option String
  orderId : Option String
  purchaseUnits : List PurchaseUnit
deriving DecidableEq, Repr

/-- Python truthiness of an optional string: `None` and `""` are falsy. -/
def truthyS : Option String → Bool
  | none => false
  | some s => !(s == "")

/-- Python `a or b` on two optional strings: yields `a` when truthy,
otherwise `b`. -/
def pyOr (a b : Option String) : Option String :=
  if truthyS a then a else b

/-- Outcome of the network interaction inside `get_custom_id_from_order`
(an oracle input): the token-endpoint call may fail, the order fetch may
return 200 with purchase units, 404, another status, or raise. -/
inductive OrderLookup where
  | tokenFetchFail
  | ok (units : List PurchaseUnit)
  | notFound
  | httpError (code : ℕ)
  | exc
deriving DecidableEq, Repr

/-- Embedding of `get_custom_id_from_order` (paypal_webhook.py lines
259-319): every failure branch — token fetch error, 404, non-404 HTTP
error, exception, or an order with no purchase units — returns `None`; a
200 order returns `purchase_units[0].custom_id or
purchase_units[0].reference_id`. -/
def getCustomIdFromOrder : OrderLookup → Option String
  | .ok [] => none
  | .ok (u :: _) => pyOr u.customId u.referenceId
  | _ => none

/-- The third token-extraction attempt of `parse_payment_data`: the token
on the first purchase-unit entry, when any entry exists. -/
def puToken (res : Resource) : Option String :=
  match res.purchaseUnits with
  | [] => none
  | u :: _ => pyOr u.customId u.referenceId

/-- Embedding of the custom-id selection cascade of `parse_payment_data`
(lines 337-359): (1) token on the resource itself, (2) token fetched from
the PayPal order via the supplementary order id, (3) token on the first
purchase unit.  The `Bool` is the `is_simulation` flag, set exactly when
attempt (2) ran and produced no truthy token. -/
def resolveCustomId (res : Resource) (lk : OrderLookup) : Option String × Bool :=
  let c1 := pyOr res.customId res.referenceId
  if truthyS c1 then (c1, false)
  else if truthyS res.orderId then
    let c2 := getCustomIdFromOrder lk
    if truthyS c2 then (c2, false)
    else (puToken res, true)
  else (puToken res, false)

/-- Splits a character list at every occurrence of `c`
(the semantics of Python `str.split(c)` for a one-character separator). -/
def splitCh (c : Char) : List Char → List (List Char)
  | [] => [[]]
  | a :: as =>
    if a = c then [] :: splitCh c as
    else
      match splitCh c as with
      | [] => [[a]]
      | p :: ps => (a :: p) :: ps

/-- Rejoins split parts with the separator character (the
`sep.join(parts)` step implicit in Python `str.split(sep, maxsplit)`). -/
def joinCh (c : Char) : List (List Char) → List Char
  | [] => []
  | [x] => x
  | x :: xs => x ++ c :: joinCh c xs

/-- Python `s.split(':', 2)`: at most two splits, the remainder rejoined
with the separator. -/
def pySplit2Ch (l : List Char) : List (List Char) :=
  match splitCh ':' l with
  | a :: b :: c :: rest => [a, b, joinCh ':' (c :: rest)]
  | other => other

/-- The word-separator decoding `item_name.replace('_', ' ')` on
characters. -/
def replU (l : List Char) : List Char :=
  l.map fun ch => if ch = '_' then ' ' else ch

/-- The decoding `item_name.replace('_', ' ')` on strings. -/
def replUnderscore (s : String) : String :=
  String.mk (replU s.data)

/-- Whether a character is a decimal digit. -/
def isDigits (l : List Char) : Bool :=
  l.all fun d => decide ('0' ≤ d) && decide (d ≤ '9')

/-- Numeric value of a digit list. -/
def digitsVal (l : List Char) : ℕ :=
  l.foldl (fun n d => 10 * n + (d.toNat - 48)) 0

/-- Model of Python `int(s)` on the strings this webhook sees: an optional
sign followed by decimal digits parses, anything else raises `ValueError`
(modelled as `none`). -/
def pyInt? (l : List Char) : Option ℤ :=
  match l with
  | [] => none
  | c :: ds =>
    if c = '-' then
      if !ds.isEmpty && isDigits ds then some (-(digitsVal ds : ℤ)) else none
    else if c = '+' then
      if !ds.isEmpty && isDigits ds then some ((digitsVal ds : ℤ)) else none
    else if isDigits (c :: ds) then some ((digitsVal (c :: ds) : ℤ)) else none

/-- Result of `parse_payment_data`:
`(telegram_user_id, beat_title, bundle_id, order_type)`. -/
structure Parsed where
  userId : Option ℤ
  beatTitle : Option String
  bundleId : Option ℕ
  orderType : String
deriving DecidableEq, Repr

/-- The body of the custom-id parsing step applied to the split parts:
three or more parts mean `user_id:type:item_name`, exactly two mean the
old `user_id:item_name` format with type `"beat"`; the item name has `_`
replaced by spaces; a bundle type is resolved against active bundles by
name; a non-numeric user id (ValueError) resets everything to
`(None, None, None, "beat")`. -/
def parseToken (parts : List (List Char)) (bundles : List Bundle) : Parsed :=
  let uidStr := parts.headD []
  let tyItem : String × List Char :=
    if 3 ≤ parts.length then (String.mk (parts.getD 1 []), parts.getD 2 [])
    else ("beat", parts.getD 1 [])
  match pyInt? uidStr with
  | some uid =>
    let title := String.mk (replU tyItem.2)
    let bid :=
      if tyItem.1 == "bundle" then
        (bundles.find? fun b => b.name == title && b.isActive).map fun b => b.id
      else none
    ⟨some uid, some title, bid, tyItem.1⟩
  | none => ⟨none, none, none, "beat"⟩

/-- Embedding of the custom-id parsing step of `parse_payment_data`
(lines 361-393): a truthy token containing `:` is split by
`split` with separator `:` and maxsplit 2, then parsed by `parseToken`;
anything else leaves the
defaults `(None, None, None, "beat")`. -/
def parseCustomId (c : Option String) (bundles : List Bundle) : Parsed :=
  match c with
  | none => ⟨none, none, none, "beat"⟩
  | some s =>
    if !s.data.isEmpty && s.data.contains ':' then
      parseToken (pySplit2Ch s.data) bundles
    else ⟨none, none, none, "beat"⟩

/-- The fixed sentinel data generated for PayPal simulations
(lines 396-403). -/
def sentinelParsed : Parsed :=
  ⟨some 12345, some "Test Beat Simulation", none, "beat"⟩

/-- Embedding of `parse_payment_data` (lines 321-411): resolve a token via
the three-stage cascade, parse it, and fall back to the sentinel
simulation data when the order lookup yielded nothing and parsing produced
no user id or no title. -/
def parsePaymentData (res : Resource) (lk : OrderLookup) (bundles : List Bundle) : Parsed :=
  let rc := resolveCustomId res lk
  let p := parseCustomId rc.1 bundles
  if rc.2 && (p.userId.isNone || p.beatTitle.isNone) then sentinelParsed else p

example : parsePaymentData ⟨some "77:bundle:Hot_Pack", none, none, []⟩ .exc
    [⟨3, "Hot Pack", 100, 80, 20, true⟩] =
    ⟨some 77, some "Hot Pack", some 3, "bundle"⟩ := by decide

example : parsePaymentData ⟨some "9:Cool_Beat", none, none, []⟩ .exc [] =
    ⟨some 9, some "Cool Beat", none, "beat"⟩ := by decide

example : parsePaymentData ⟨none, none, some "ORD", []⟩ .exc [] = sentinelParsed := by
  decide

example : parsePaymentData ⟨some "abc:Thing", none, none, []⟩ .exc [] =
    ⟨none, none, none, "beat"⟩ := by decide

/-- One event the webhook can send: the payload of a
`notify_user_via_bot` / re-notification call. -/
structure NotifyCall where
  userId : ℤ
  beatTitle : String
  bundleId : Option ℕ
  orderType : String
  transactionId : String
deriving DecidableEq, Repr

/-- One line appended to `/tmp/paypal_security_violations.log`
(lines 767-769): the user, beat and transaction of an invalid-reservation
payment. -/
structure SecLog where
  userId : ℤ
  beatId : ℕ
  transactionId : String
deriving DecidableEq, Repr

/-- Outbound side effects recorded during one webhook delivery:
notification calls, `release_beat_reservation` calls,
`release_bundle_reservations` calls, and security-log lines. -/
structure Effects where
  notifyCalls : List NotifyCall
  beatReleases : List (ℕ × ℤ)
  bundleReleases : List (ℕ × ℤ)
  securityLog : List SecLog
deriving DecidableEq, Repr

/-- No side effects. -/
def emptyEffects : Effects := ⟨[], [], [], []⟩

/-- Outcome of one HTTP attempt inside `notify_user_via_bot` (an oracle
input): a 200 response carrying an optional parsed body `status` field
(`none` models an unparsable body), a non-200 status code, or a
timeout/network exception. -/
inductive Attempt where
  | httpOk (bodyStatus : Option String)
  | httpStatus (code : ℕ)
  | netErr
deriving DecidableEq, Repr

/-- Classification of one attempt by the loop body of
`notify_user_via_bot` (lines 480-520): a 200 response is decisive — `True`
only for body status `"ok"`, `False` for `"partial"`, `"error"`, unknown
statuses and unparsable bodies; a 4xx response is decisively `False`;
any other status, timeout or exception retries (`none`). -/
def attemptOutcome : Attempt → Option Bool
  | .httpOk (some s) => some (s == "ok")
  | .httpOk none => some false
  | .httpStatus c => if 400 ≤ c && c < 500 then some false else none
  | .netErr => none

/-- The bounded retry loop: up to `fuel` attempts, consuming outcomes from
the oracle list; exhausting retries (or the oracle list) is failure. -/
def notifyGo : ℕ → List Attempt → Bool
  | 0, _ => false
  | _ + 1, [] => false
  | n + 1, a :: rest =>
    match attemptOutcome a with
    | some b => b
    | none => notifyGo n rest

/-- Embedding of `notify_user_via_bot` (lines 448-529): `max_retries = 3`;
returns `true` exactly when some attempt within the retry budget got a 200
response whose body status is `"ok"`. -/
def notifyResult (attempts : List Attempt) : Bool :=
  notifyGo 3 attempts

/-- Outcome of the `get_user_active_reservation` call (an oracle input,
implemented outside this repository in `bot/db_manager`): either a result
`(has_reservation, reserved_beat_id)` or a raised exception
(`unavailable`), which also covers a failing `cleanup_expired_reservations`
call. -/
inductive ReservationLookup where
  | ok (hasReservation : Bool) (reservedBeatId : Option ℕ)
  | unavailable
deriving DecidableEq, Repr

/-- Response returned by the `PAYMENT.CAPTURE.COMPLETED` branch:
the three distinct `{"status": "ok"}` JSON bodies and the
`HTTPException` status codes. -/
inductive WebhookResponse where
  | okDuplicate
  | okIdempotent
  | okProcessed
  | httpError (code : ℕ)
deriving DecidableEq, Repr

/-- Membership of a beat id in a bundle via the `bundle_beats` join. -/
def hasRel (rels : List BundleBeat) (bid beatId : ℕ) : Bool :=
  rels.any fun r => r.bundleId == bid && r.beatId == beatId

/-- The join query `session.query(Beat).join(BundleBeat).filter(
BundleBeat.bundle_id == bundle_id).all()`. -/
def beatsInBundle (db : DB) (bid : ℕ) : List Beat :=
  db.beats.filter fun b => hasRel db.bundleBeats bid b.id

/-- Embedding of `remove_exclusive_beat_by_title` (lines 915-933): find
the first exclusive beat with the given title; delete all of its
`bundle_beats` relations (in every bundle), then the beat row.  No bundle
row is touched.  Returns the updated store and whether a beat was
removed. -/
def removeExclusiveBeatByTitle (db : DB) (title : String) : DB × Bool :=
  match db.beats.find? fun b => b.title == title && b.isExclusive with
  | none => (db, false)
  | some b =>
    ({ db with
        bundleBeats := db.bundleBeats.filter fun r => !(r.beatId == b.id),
        beats := db.beats.filter fun x => !(x.id == b.id) },
     true)

/-- Summary of the dict returned by `remove_exclusive_beats_from_bundle`;
only the fields the webhook reads. -/
structure CleanupInfo where
  removedBeats : ℕ
  bundleDeleted : Bool
  bundleUpdated : Bool
deriving DecidableEq, Repr

/-- The bundle members that survive cleanup: the non-exclusive members
(`non_exclusive_beats`, line 958). -/
def keptMembers (db : DB) (bid : ℕ) : List Beat :=
  (beatsInBundle db bid).filter fun b => !b.isExclusive

/-- The bundle members removed by cleanup: the exclusive members
(`exclusive_beats`, line 957). -/
def exclMembers (db : DB) (bid : ℕ) : List Beat :=
  (beatsInBundle db bid).filter fun b => b.isExclusive

/-- Ids of the exclusive members slated for removal. -/
def exclMemberIds (db : DB) (bid : ℕ) : List ℕ :=
  (exclMembers db bid).map fun b => b.id

/-- The beats table after deleting every exclusive member of the bundle
(the per-beat `session.delete(beat)` loop, lines 968-980). -/
def strippedBeats (db : DB) (bid : ℕ) : List Beat :=
  db.beats.filter fun b => !((exclMemberIds db bid).contains b.id)

/-- The membership table after deleting every relation of every removed
exclusive member — in every bundle, not only the purchased one
(lines 972-975). -/
def strippedRels (db : DB) (bid : ℕ) : List BundleBeat :=
  db.bundleBeats.filter fun r => !((exclMemberIds db bid).contains r.beatId)

/-- `new_individual_price`: the sum of the prices of the remaining members
(line 1000). -/
def newIndividualPrice (db : DB) (bid : ℕ) : ℚ :=
  ((keptMembers db bid).map fun b => b.price).sum

/-- `new_discount_percent = max(original_discount_percent, 10)`
(lines 1003-1007). -/
def newDiscountOf (bu : Bundle) : ℚ :=
  max bu.discountPercent 10

/-- The price update applied to the purchased bundle row
(lines 1008-1016): `bundle_price = individual_price *
(1 - discount_percent / 100)`. -/
def repriceBundle (db : DB) (bid : ℕ) (bu : Bundle) (b : Bundle) : Bundle :=
  if b.id == bid then
    { b with individualPrice := newIndividualPrice db bid,
             bundlePrice := newIndividualPrice db bid * (1 - newDiscountOf bu / 100),
             discountPercent := newDiscountOf bu }
  else b

/-- Embedding of `remove_exclusive_beats_from_bundle` (lines 935-1035):
split the members of the bundle into exclusive and non-exclusive; delete
the relations of every exclusive member (in every bundle) and its beat
row; if no
non-exclusive member remains, delete the bundle row; otherwise recompute
the bundle prices per `repriceBundle`. -/
def removeExclusiveBeatsFromBundle (db : DB) (bid : ℕ) : DB × CleanupInfo :=
  match db.bundles.find? fun b => b.id == bid with
  | none => (db, ⟨0, false, false⟩)
  | some bu =>
    if (keptMembers db bid).isEmpty then
      (⟨strippedBeats db bid, db.bundles.filter fun b => !(b.id == bid),
        strippedRels db bid, db.orders⟩,
       ⟨(exclMembers db bid).length, true, false⟩)
    else
      (⟨strippedBeats db bid, db.bundles.map (repriceBundle db bid bu),
        strippedRels db bid, db.orders⟩,
       ⟨(exclMembers db bid).length, false, true⟩)

theorem removeFromBundle_found {db : DB} {bid : ℕ} {bu : Bundle}
    (hfind : db.bundles.find? (fun b => b.id == bid) = some bu) :
    removeExclusiveBeatsFromBundle db bid =
      if (keptMembers db bid).isEmpty then
        (⟨strippedBeats db bid, db.bundles.filter fun b => !(b.id == bid),
          strippedRels db bid, db.orders⟩,
         ⟨(exclMembers db bid).length, true, false⟩)
      else
        (⟨strippedBeats db bid, db.bundles.map (repriceBundle db bid bu),
          strippedRels db bid, db.orders⟩,
         ⟨(exclMembers db bid).length, false, true⟩) := by
  unfold removeExclusiveBeatsFromBundle; rw [hfind]

/-- The event-level inputs extracted from the webhook body at lines
601-605: `resource["id"]`, `body["id"]`, payer email, amount, currency and
the `custom_token` field read when persisting. -/
structure CaptureEvent where
  webhookId : String
  transactionId : String
  payerEmail : String
  amount : ℚ
  currency : String
  customToken : Option String
deriving DecidableEq, Repr

/-- Result of processing one capture delivery: the stores, the recorded
outbound effects and the HTTP response. -/
structure StepResult where
  db : DB
  cache : Cache
  effects : Effects
  response : WebhookResponse
deriving DecidableEq, Repr

/-- Python truthiness test `not telegram_user_id or not beat_title`
(line 691): `None` and `0` are falsy user ids; `None` and `""` are falsy
titles. -/
def parsedInvalid (p : Parsed) : Bool :=
  (p.userId == none || p.userId == some 0) ||
    (p.beatTitle == none || p.beatTitle == some "")

/-- The best-effort debug row persisted at lines 694-708 when parsing
fails: `order_type="unknown"`, `beat_id=None`, falsy fields replaced by
`0` / `"PARSING_FAILED"`. -/
def debugOrder (ev : CaptureEvent) (p : Parsed) (now : ℤ) : Order :=
  { transactionId := ev.transactionId
    telegramUserId := p.userId.getD 0
    beatTitle := match p.beatTitle with
      | some t => if t = "" then "PARSING_FAILED" else t
      | none => "PARSING_FAILED"
    payerEmail := ev.payerEmail
    amount := ev.amount
    currency := ev.currency
    token := ev.customToken
    beatId := none
    bundleId := p.bundleId
    orderType := "unknown"
    createdAt := now }

/-- The order row persisted at lines 799-814 on successful validation:
`beat_id` is the literal `None`, `bundle_id` the parsed bundle id. -/
def mkOrder (ev : CaptureEvent) (p : Parsed) (uid : ℤ) (title : String) (now : ℤ) : Order :=
  { transactionId := ev.transactionId
    telegramUserId := uid
    beatTitle := title
    payerEmail := ev.payerEmail
    amount := ev.amount
    currency := ev.currency
    token := ev.customToken
    beatId := none
    bundleId := p.bundleId
    orderType := p.orderType
    createdAt := now }

/-- Outcome of the availability / reservation validation block
(lines 711-796). -/
inductive ValidationOutcome where
  | reject (code : ℕ)
  | proceed (log : List SecLog)
deriving DecidableEq, Repr

/-- Embedding of the race-condition / reservation validation block
(lines 711-796).  Bundles: 404 when the bundle row is gone, 409 when it
has no members, otherwise proceed (member exclusivity never blocks).
Single beats: when an exclusive beat with the resolved title exists, the
reservation is looked up; on mismatch or absence a security-log line is
written and `HTTPException(409)` is raised — but the raise happens inside
the `try` whose `except Exception` implements the fail-open policy, so the
exception is swallowed and the code proceeds in every case (`unavailable`
likewise proceeds).  A non-exclusive title must exist as a non-exclusive
beat, else 404.  Any other order type skips validation. -/
def validateAvailability (db : DB) (p : Parsed) (uid : ℤ) (txn : String)
    (rl : ReservationLookup) : ValidationOutcome :=
  let title := p.beatTitle.getD ""
  if p.orderType == "bundle" && p.bundleId.isSome then
    let bid := p.bundleId.getD 0
    match db.bundles.find? fun b => b.id == bid with
    | none => .reject 404
    | some _ =>
      if (beatsInBundle db bid).isEmpty then .reject 409 else .proceed []
  else if p.orderType == "beat" then
    match db.beats.find? fun b => b.title == title && b.isExclusive with
    | some eb =>
      match rl with
      | .ok hasRes rid =>
        if !hasRes || !(rid == some eb.id) then .proceed [⟨uid, eb.id, txn⟩]
        else .proceed []
      | .unavailable => .proceed []
    | none =>
      match db.beats.find? fun b => b.title == title && !b.isExclusive with
      | none => .reject 404
      | some _ => .proceed []
  else .proceed []

/-- The reservation releases issued at lines 838-873 when notification
succeeded: for a beat order, `release_beat_reservation` on the exclusive
beat with the purchased title (when one exists); for a bundle order,
`release_bundle_reservations` on the bundle. -/
def releaseEffects (db : DB) (p : Parsed) (uid : ℤ) (title : String)
    (eff : Effects) : Effects :=
  if p.orderType == "beat" then
    match db.beats.find? fun b => b.title == title && b.isExclusive with
    | some b => { eff with beatReleases := [(b.id, uid)] }
    | none => eff
  else if p.orderType == "bundle" && p.bundleId.isSome then
    { eff with bundleReleases := [(p.bundleId.getD 0, uid)] }
  else eff

/-- The exclusive-inventory cleanup at lines 876-896 when notification
succeeded: bundle orders run `remove_exclusive_beats_from_bundle`, every
other order runs `remove_exclusive_beat_by_title` on the purchased
title. -/
def cleanupInventory (db : DB) (p : Parsed) (title : String) : DB :=
  if p.orderType == "bundle" && p.bundleId.isSome then
    (removeExclusiveBeatsFromBundle db (p.bundleId.getD 0)).1
  else
    (removeExclusiveBeatByTitle db title).1

/-- The settlement tail (lines 711-900): validation, the order insert, the
notification, and — only on notification success — reservation release and
inventory cleanup. -/
def settle (db : DB) (cache' : Cache) (now : ℤ) (ev : CaptureEvent)
    (p : Parsed) (rl : ReservationLookup) (attempts : List Attempt) : StepResult :=
  let uid := p.userId.getD 0
  let title := p.beatTitle.getD ""
  match validateAvailability db p uid ev.transactionId rl with
  | .reject code => ⟨db, cache', emptyEffects, .httpError code⟩
  | .proceed secLog =>
    let db1 : DB := { db with orders := db.orders ++ [mkOrder ev p uid title now] }
    let eff0 : Effects :=
      { emptyEffects with
          securityLog := secLog
          notifyCalls := [⟨uid, title, p.bundleId, p.orderType, ev.transactionId⟩] }
    if notifyResult attempts then
      ⟨cleanupInventory db1 p title, cache', releaseEffects db1 p uid title eff0,
        .okProcessed⟩
    else
      ⟨db1, cache', eff0, .okProcessed⟩

/-- The surviving dedup-cache rows after the prune
`DELETE FROM webhook_events WHERE timestamp < time.time() - 300`
(line 632). -/
def prunedEntries (cache : Cache) (now : ℤ) : List CacheEntry :=
  cache.entries.filter fun e => decide (now - 300 ≤ e.timestamp)

/-- Whether the delivered webhook event id is already present in the
dedup window (lines 635-644). -/
def dupHit (cache : Cache) (now : ℤ) (ev : CaptureEvent) : Bool :=
  (prunedEntries cache now).any fun e => e.webhookId == ev.webhookId

/-- The dedup cache after registering this webhook event
(lines 647-651). -/
def cacheAfter (cache : Cache) (now : ℤ) (ev : CaptureEvent) : Cache :=
  ⟨prunedEntries cache now ++ [⟨ev.webhookId, now, ev.transactionId⟩]⟩

/-- The primary idempotency query
`db.query(Order).filter(Order.transaction_id == transaction_id).first()`
(line 613). -/
def findTxn (db : DB) (ev : CaptureEvent) : Option Order :=
  db.orders.find? fun o => o.transactionId == ev.transactionId

/-- The re-notification payload sent for an old existing order
(lines 676-682). -/
def renotifyCall (o : Order) (ev : CaptureEvent) : NotifyCall :=
  ⟨o.telegramUserId, o.beatTitle, o.bundleId, o.orderType, ev.transactionId⟩

/-- Embedding of the `PAYMENT.CAPTURE.COMPLETED` branch of
`paypal_webhook` (lines 597-900): the transaction-id idempotency query,
the 5-minute sliding-window event-id dedup cache (pruned, then consulted,
then extended), the old-order re-notification safety net, the
parse-failure debug insert, and the settlement tail. -/
def processCapture (db : DB) (cache : Cache) (now : ℤ) (ev : CaptureEvent)
    (p : Parsed) (rl : ReservationLookup) (attempts : List Attempt) : StepResult :=
  if dupHit cache now ev then
    ⟨db, ⟨prunedEntries cache now⟩, emptyEffects, .okDuplicate⟩
  else
    match findTxn db ev with
    | some o =>
      if now - o.createdAt < 300 then
        ⟨db, cacheAfter cache now ev, emptyEffects, .okIdempotent⟩
      else
        ⟨db, cacheAfter cache now ev,
          { emptyEffects with notifyCalls := [renotifyCall o ev] }, .okIdempotent⟩
    | none =>
      if parsedInvalid p then
        ⟨{ db with orders := db.orders ++ [debugOrder ev p now] },
          cacheAfter cache now ev, emptyEffects, .httpError 400⟩
      else settle db (cacheAfter cache now ev) now ev p rl attempts

theorem processCapture_dup {db : DB} {cache : Cache} {now : ℤ} {ev : CaptureEvent}
    {p : Parsed} {rl : ReservationLookup} {attempts : List Attempt}
    (h : dupHit cache now ev = true) :
    processCapture db cache now ev p rl attempts =
      ⟨db, ⟨prunedEntries cache now⟩, emptyEffects, .okDuplicate⟩ := by
  unfold processCapture; rw [h]; rfl

theorem processCapture_idem {db : DB} {cache : Cache} {now : ℤ} {ev : CaptureEvent}
    {p : Parsed} {rl : ReservationLookup} {attempts : List Attempt} {o : Order}
    (hdup : dupHit cache now ev = false) (hf : findTxn db ev = some o) :
    processCapture db cache now ev p rl attempts =
      ⟨db, cacheAfter cache now ev,
        (if now - o.createdAt < 300 then emptyEffects
         else { emptyEffects with notifyCalls := [renotifyCall o ev] }),
        .okIdempotent⟩ := by
  unfold processCapture; rw [hdup, hf]
  show (if now - o.createdAt < 300 then _ else _) = _
  split <;> rfl

theorem processCapture_invalid {db : DB} {cache : Cache} {now : ℤ} {ev : CaptureEvent}
    {p : Parsed} {rl : ReservationLookup} {attempts : List Attempt}
    (hdup : dupHit cache now ev = false) (hf : findTxn db ev = none)
    (hinv : parsedInvalid p = true) :
    processCapture db cache now ev p rl attempts =
      ⟨{ db with orders := db.orders ++ [debugOrder ev p now] },
        cacheAfter cache now ev, emptyEffects, .httpError 400⟩ := by
  unfold processCapture; rw [hdup, hf, hinv]; rfl

theorem processCapture_valid {db : DB} {cache : Cache} {now : ℤ} {ev : CaptureEvent}
    {p : Parsed} {rl : ReservationLookup} {attempts : List Attempt}
    (hdup : dupHit cache now ev = false) (hf : findTxn db ev = none)
    (hinv : parsedInvalid p = false) :
    processCapture db cache now ev p rl attempts =
      settle db (cacheAfter cache now ev) now ev p rl attempts := by
  unfold processCapture; rw [hdup, hf, hinv]; rfl

theorem settle_reject {db : DB} {cache' : Cache} {now : ℤ} {ev : CaptureEvent}
    {p : Parsed} {rl : ReservationLookup} {attempts : List Attempt} {code : ℕ}
    (h : validateAvailability db p (p.userId.getD 0) ev.transactionId rl = .reject code) :
    settle db cache' now ev p rl attempts =
      ⟨db, cache', emptyEffects, .httpError code⟩ := by
  unfold settle; dsimp only; rw [h]

theorem settle_proceed {db : DB} {cache' : Cache} {now : ℤ} {ev : CaptureEvent}
    {p : Parsed} {rl : ReservationLookup} {attempts : List Attempt}
    {secLog : List SecLog}
    (h : validateAvailability db p (p.userId.getD 0) ev.transactionId rl = .proceed secLog) :
    settle db cache' now ev p rl attempts =
      (let uid := p.userId.getD 0
       let title := p.beatTitle.getD ""
       let db1 : DB := { db with orders := db.orders ++ [mkOrder ev p uid title now] }
       let eff0 : Effects :=
         { emptyEffects with
             securityLog := secLog
             notifyCalls := [⟨uid, title, p.bundleId, p.orderType, ev.transactionId⟩] }
       if notifyResult attempts then
         ⟨cleanupInventory db1 p title, cache', releaseEffects db1 p uid title eff0,
           .okProcessed⟩
       else ⟨db1, cache', eff0, .okProcessed⟩) := by
  unfold settle; dsimp only; rw [h]

theorem orders_removeExclusiveBeatByTitle (db : DB) (title : String) :
    ((removeExclusiveBeatByTitle db title).1).orders = db.orders := by
  unfold removeExclusiveBeatByTitle
  cases db.beats.find? fun b => b.title == title && b.isExclusive <;> rfl

theorem bundles_removeExclusiveBeatByTitle (db : DB) (title : String) :
    ((removeExclusiveBeatByTitle db title).1).bundles = db.bundles := by
  unfold removeExclusiveBeatByTitle
  cases db.beats.find? fun b => b.title == title && b.isExclusive <;> rfl

theorem orders_removeExclusiveBeatsFromBundle (db : DB) (bid : ℕ) :
    ((removeExclusiveBeatsFromBundle db bid).1).orders = db.orders := by
  unfold removeExclusiveBeatsFromBundle
  cases db.bundles.find? fun b => b.id == bid with
  | none => rfl
  | some bu => dsimp only; split <;> rfl

theorem orders_cleanupInventory (db : DB) (p : Parsed) (title : String) :
    (cleanupInventory db p title).orders = db.orders := by
  unfold cleanupInventory
  split
  · exact orders_removeExclusiveBeatsFromBundle ..
  · exact orders_removeExclusiveBeatByTitle ..


/-- C10: every Order row the capture path persists — the settlement insert
and the parse-failure debug insert alike — carries `beat_id = None` (the
code writes the literal `None` in both constructors even when the
purchased beat was found during validation); only the bundle foreign key
is ever populated, with the parsed bundle id. -/
theorem c10_order_beat_fk_never_populated
    (db : DB) (cache : Cache) (now : ℤ) (ev : CaptureEvent) (p : Parsed)
    (rl : ReservationLookup) (attempts : List Attempt) :
    (processCapture db cache now ev p rl attempts).db.orders = db.orders ∨
      ∃ newO : Order,
        (processCapture db cache now ev p rl attempts).db.orders = db.orders ++ [newO] ∧
          newO.beatId = none ∧ newO.bundleId = p.bundleId := by
  cases hdup : dupHit cache now ev with
  | true => left; rw [processCapture_dup hdup]
  | false =>
    cases hf : findTxn db ev with
    | some o => left; rw [processCapture_idem hdup hf]
    | none =>
      cases hinv : parsedInvalid p with
      | true =>
        right
        exact ⟨debugOrder ev p now, by rw [processCapture_invalid hdup hf hinv], rfl, rfl⟩
      | false =>
        rw [processCapture_valid hdup hf hinv]
        cases hv : validateAvailability db p (p.userId.getD 0) ev.transactionId rl with
        | reject code => left; rw [settle_reject hv]
        | proceed secLog =>
          right
          refine ⟨mkOrder ev p (p.userId.getD 0) (p.beatTitle.getD "") now, ?_, rfl, rfl⟩
          rw [settle_proceed hv]
          dsimp only
          split
          · exact orders_cleanupInventory ..
          · rfl

/-- C1: a capture delivery whose transaction id already has an Order row,
or whose external event id is already in the 5-minute dedup window,
returns a no-op success response (duplicate-blocked or idempotent) and
leaves the orders table unchanged — so repeated settlement calls persist
exactly one Order row per transaction id. -/
theorem c1_repeated_settlement_is_noop
    (db : DB) (cache : Cache) (now : ℤ) (ev : CaptureEvent) (p : Parsed)
    (rl : ReservationLookup) (attempts : List Attempt)
    (h : (∃ o ∈ db.orders, o.transactionId = ev.transactionId) ∨
         (∃ e ∈ cache.entries, e.webhookId = ev.webhookId ∧ now - 300 ≤ e.timestamp)) :
    (processCapture db cache now ev p rl attempts).db.orders = db.orders ∧
      ((processCapture db cache now ev p rl attempts).response = .okDuplicate ∨
        (processCapture db cache now ev p rl attempts).response = .okIdempotent) := by
  cases hdup : dupHit cache now ev with
  | true => rw [processCapture_dup hdup]; exact ⟨rfl, Or.inl rfl⟩
  | false =>
    have hord : ∃ o ∈ db.orders, o.transactionId = ev.transactionId := by
      rcases h with h | ⟨e, he, hw, ht⟩
      · exact h
      · exfalso
        have hd : dupHit cache now ev = true := by
          unfold dupHit prunedEntries
          rw [List.any_eq_true]
          exact ⟨e, List.mem_filter.mpr ⟨he, by simpa using ht⟩, by simp [hw]⟩
        rw [hd] at hdup
        exact Bool.noConfusion hdup
    have hsome : (findTxn db ev).isSome := by
      unfold findTxn
      rw [List.find?_isSome]
      obtain ⟨o, ho, hot⟩ := hord
      exact ⟨o, ho, by simp [hot]⟩
    obtain ⟨o, hf⟩ := Option.isSome_iff_exists.mp hsome
    rw [processCapture_idem hdup hf]
    exact ⟨rfl, Or.inr rfl⟩

/-- Fixture: an already-persisted order used by several witnesses. -/
def wOrder : Order :=
  ⟨"TX1", 99, "Midnight Drive", "payer@example.com", 30, "EUR", none, none, none,
    "beat", 900⟩

/-- Fixture: the capture event redelivering transaction `TX1`. -/
def wEvent : CaptureEvent :=
  ⟨"WH1", "TX1", "payer@example.com", 30, "EUR", none⟩

/-- Fixture: the parse result for a single-beat purchase by user 99. -/
def wParsed : Parsed := ⟨some 99, some "Midnight Drive", none, "beat"⟩

theorem c1_repeated_settlement_is_noop_witness :
    ((∃ o ∈ (DB.mk [] [] [] [wOrder]).orders, o.transactionId = wEvent.transactionId) ∨
      (∃ e ∈ (Cache.mk []).entries, e.webhookId = wEvent.webhookId ∧
        (1000 : ℤ) - 300 ≤ e.timestamp)) ∧
      ((processCapture ⟨[], [], [], [wOrder]⟩ ⟨[]⟩ 1000 wEvent wParsed
          (.ok false none) []).db.orders = (DB.mk [] [] [] [wOrder]).orders ∧
        ((processCapture ⟨[], [], [], [wOrder]⟩ ⟨[]⟩ 1000 wEvent wParsed
            (.ok false none) []).response = .okDuplicate ∨
          (processCapture ⟨[], [], [], [wOrder]⟩ ⟨[]⟩ 1000 wEvent wParsed
            (.ok false none) []).response = .okIdempotent)) :=
  ⟨Or.inl (by decide),
    c1_repeated_settlement_is_noop ⟨[], [], [], [wOrder]⟩ ⟨[]⟩ 1000 wEvent wParsed
      (.ok false none) [] (Or.inl (by decide))⟩

/-- C8: a fresh delivery (not an event-id duplicate) for a transaction
whose Order row exists and is at least 300 seconds old re-attempts the
fulfillment notification only, and returns the idempotent no-op: the
whole store is unchanged (no second Order row, no inventory removal) and
no reservation release is issued — for every notification outcome. -/
theorem c8_old_order_renotify_only
    (db : DB) (cache : Cache) (now : ℤ) (ev : CaptureEvent) (p : Parsed)
    (rl : ReservationLookup) (attempts : List Attempt) (o : Order)
    (hdup : dupHit cache now ev = false)
    (hf : findTxn db ev = some o)
    (hold : 300 ≤ now - o.createdAt) :
    (processCapture db cache now ev p rl attempts).db = db ∧
      (processCapture db cache now ev p rl attempts).effects =
        { emptyEffects with notifyCalls := [renotifyCall o ev] } ∧
      (processCapture db cache now ev p rl attempts).response = .okIdempotent := by
  rw [processCapture_idem hdup hf]
  refine ⟨rfl, ?_, rfl⟩
  show (if now - o.createdAt < 300 then _ else _) = _
  rw [if_neg (by omega)]

/-- Fixture: `wOrder` aged to 400 seconds before `now = 1000`. -/
def wOldOrder : Order := { wOrder with createdAt := 600 }

theorem c8_old_order_renotify_only_witness :
    dupHit ⟨[]⟩ 1000 wEvent = false ∧
      findTxn ⟨[], [], [], [wOldOrder]⟩ wEvent = some wOldOrder ∧
      (300 : ℤ) ≤ 1000 - wOldOrder.createdAt ∧
      ((processCapture ⟨[], [], [], [wOldOrder]⟩ ⟨[]⟩ 1000 wEvent wParsed
          (.ok false none) [.netErr]).db = ⟨[], [], [], [wOldOrder]⟩ ∧
        (processCapture ⟨[], [], [], [wOldOrder]⟩ ⟨[]⟩ 1000 wEvent wParsed
          (.ok false none) [.netErr]).effects =
          { emptyEffects with notifyCalls := [renotifyCall wOldOrder wEvent] } ∧
        (processCapture ⟨[], [], [], [wOldOrder]⟩ ⟨[]⟩ 1000 wEvent wParsed
          (.ok false none) [.netErr]).response = .okIdempotent) :=
  ⟨by decide, by decide, by decide,
    c8_old_order_renotify_only ⟨[], [], [], [wOldOrder]⟩ ⟨[]⟩ 1000 wEvent wParsed
      (.ok false none) [.netErr] wOldOrder (by decide) (by decide) (by decide)⟩

/-- C9: on a fresh delivery whose parse result is invalid (falsy buyer id
or falsy title), the handler appends the best-effort debug Order — which
carries the transaction id, raw amount, currency and payer contact, with
order kind `"unknown"` — and rejects with a 400-equivalent error. -/
theorem c9_unresolvable_persists_debug_row
    (db : DB) (cache : Cache) (now : ℤ) (ev : CaptureEvent) (p : Parsed)
    (rl : ReservationLookup) (attempts : List Attempt)
    (hdup : dupHit cache now ev = false)
    (hf : findTxn db ev = none)
    (hinv : parsedInvalid p = true) :
    (processCapture db cache now ev p rl attempts).db.orders =
        db.orders ++ [debugOrder ev p now] ∧
      (debugOrder ev p now).orderType = "unknown" ∧
      (debugOrder ev p now).transactionId = ev.transactionId ∧
      (debugOrder ev p now).amount = ev.amount ∧
      (debugOrder ev p now).currency = ev.currency ∧
      (debugOrder ev p now).payerEmail = ev.payerEmail ∧
      (processCapture db cache now ev p rl attempts).response = .httpError 400 := by
  rw [processCapture_invalid hdup hf hinv]
  exact ⟨rfl, rfl, rfl, rfl, rfl, rfl, rfl⟩

/-- Fixture: the parse result of an unresolvable event. -/
def wBadParsed : Parsed := ⟨none, none, none, "beat"⟩

theorem c9_unresolvable_persists_debug_row_witness :
    dupHit ⟨[]⟩ 1000 wEvent = false ∧
      findTxn ⟨[], [], [], []⟩ wEvent = none ∧
      parsedInvalid wBadParsed = true ∧
      ((processCapture ⟨[], [], [], []⟩ ⟨[]⟩ 1000 wEvent wBadParsed
          (.ok false none) []).db.orders = [] ++ [debugOrder wEvent wBadParsed 1000] ∧
        (debugOrder wEvent wBadParsed 1000).orderType = "unknown" ∧
        (debugOrder wEvent wBadParsed 1000).transactionId = wEvent.transactionId ∧
        (debugOrder wEvent wBadParsed 1000).amount = wEvent.amount ∧
        (debugOrder wEvent wBadParsed 1000).currency = wEvent.currency ∧
        (debugOrder wEvent wBadParsed 1000).payerEmail = wEvent.payerEmail ∧
        (processCapture ⟨[], [], [], []⟩ ⟨[]⟩ 1000 wEvent wBadParsed
          (.ok false none) []).response = .httpError 400) :=
  ⟨by decide, by decide, by decide,
    c9_unresolvable_persists_debug_row ⟨[], [], [], []⟩ ⟨[]⟩ 1000 wEvent wBadParsed
      (.ok false none) [] (by decide) (by decide) (by decide)⟩

/-- C3: whenever `notify_user_via_bot` does not report full success (the
gateway answered `partial`, `error`, an unknown status, an HTTP error, or
every attempt raised — i.e. the embedded retry loop returns `false`), the
capture handler leaves the beats, bundles and membership tables exactly as
they were and issues no reservation release: the purchased item stays in
the catalog and its reservation stays held. -/
theorem c3_failed_notification_suppresses_cleanup
    (db : DB) (cache : Cache) (now : ℤ) (ev : CaptureEvent) (p : Parsed)
    (rl : ReservationLookup) (attempts : List Attempt)
    (h : notifyResult attempts = false) :
    (processCapture db cache now ev p rl attempts).db.beats = db.beats ∧
      (processCapture db cache now ev p rl attempts).db.bundles = db.bundles ∧
      (processCapture db cache now ev p rl attempts).db.bundleBeats = db.bundleBeats ∧
      (processCapture db cache now ev p rl attempts).effects.beatReleases = [] ∧
      (processCapture db cache now ev p rl attempts).effects.bundleReleases = [] := by
  cases hdup : dupHit cache now ev with
  | true => rw [processCapture_dup hdup]; exact ⟨rfl, rfl, rfl, rfl, rfl⟩
  | false =>
    cases hf : findTxn db ev with
    | some o =>
      rw [processCapture_idem hdup hf]
      refine ⟨rfl, rfl, rfl, ?_, ?_⟩ <;> (split <;> rfl)
    | none =>
      cases hinv : parsedInvalid p with
      | true => rw [processCapture_invalid hdup hf hinv]; exact ⟨rfl, rfl, rfl, rfl, rfl⟩
      | false =>
        rw [processCapture_valid hdup hf hinv]
        cases hv : validateAvailability db p (p.userId.getD 0) ev.transactionId rl with
        | reject code => rw [settle_reject hv]; exact ⟨rfl, rfl, rfl, rfl, rfl⟩
        | proceed secLog =>
          rw [settle_proceed hv]
          dsimp only
          rw [if_neg (by rw [h]; exact Bool.false_ne_true)]
          exact ⟨rfl, rfl, rfl, rfl, rfl⟩

/-- Fixture: a catalog holding the exclusive beat id 7 titled
"Midnight Drive". -/
def wBeatDb : DB := ⟨[⟨7, "Midnight Drive", 30, true⟩], [], [], []⟩

theorem c3_failed_notification_suppresses_cleanup_witness :
    notifyResult [.httpOk (some "partial")] = false ∧
      ((processCapture wBeatDb ⟨[]⟩ 1000 wEvent wParsed (.ok true (some 7))
          [.httpOk (some "partial")]).db.beats = wBeatDb.beats ∧
        (processCapture wBeatDb ⟨[]⟩ 1000 wEvent wParsed (.ok true (some 7))
          [.httpOk (some "partial")]).db.bundles = wBeatDb.bundles ∧
        (processCapture wBeatDb ⟨[]⟩ 1000 wEvent wParsed (.ok true (some 7))
          [.httpOk (some "partial")]).db.bundleBeats = wBeatDb.bundleBeats ∧
        (processCapture wBeatDb ⟨[]⟩ 1000 wEvent wParsed (.ok true (some 7))
          [.httpOk (some "partial")]).effects.beatReleases = [] ∧
        (processCapture wBeatDb ⟨[]⟩ 1000 wEvent wParsed (.ok true (some 7))
          [.httpOk (some "partial")]).effects.bundleReleases = []) :=
  ⟨by decide,
    c3_failed_notification_suppresses_cleanup wBeatDb ⟨[]⟩ 1000 wEvent wParsed
      (.ok true (some 7)) [.httpOk (some "partial")] (by decide)⟩

/-- C2 concerns a genuine defect: `paypal_webhook` raises
`HTTPException(409)` on a reservation mismatch (line 771) *inside* the
`try` whose `except Exception` (line 775) implements the fail-open policy
for validation-subsystem errors; `HTTPException` subclasses `Exception`,
so the rejection is swallowed.  This theorem evaluates the embedded code
at the failing input: buyer 99 pays for exclusive beat 7 while the
reservation lookup succeeds and reports no active reservation — the
security-log line is written, yet the Order row is persisted and the
response is the success response, not a 409 conflict, and with a
successful notification the exclusive beat is even removed from the
catalog. -/
theorem c2_reservation_mismatch_is_settled_not_rejected :
    (processCapture wBeatDb ⟨[]⟩ 1000 wEvent wParsed (.ok false none) []).response =
        .okProcessed ∧
      (processCapture wBeatDb ⟨[]⟩ 1000 wEvent wParsed (.ok false none) []).db.orders =
        [mkOrder wEvent wParsed 99 "Midnight Drive" 1000] ∧
      (processCapture wBeatDb ⟨[]⟩ 1000 wEvent wParsed (.ok false none) []).effects.securityLog =
        [⟨99, 7, "TX1"⟩] ∧
      (processCapture wBeatDb ⟨[]⟩ 1000 wEvent wParsed (.ok false none)
          [.httpOk (some "ok")]).db.beats = [] := by
  exact ⟨by decide, by decide, by decide, by decide⟩

/-- C4: post-sale bundle cleanup.  When every member of the found bundle
was exclusive (no non-exclusive member remains after removal) the bundle
row is deleted entirely; when non-exclusive members remain, the bundle is
updated with `individual_price` the sum of the prices of the remaining
members, `discount_percent = max(original, 10)`, and
`bundle_price = individual_price * (1 - discount_percent / 100)` — on the
Summer Pack example of the spec this yields 70, 20 and 56 (see the
witness). -/
theorem c4_bundle_cleanup_recompute
    (db : DB) (bid : ℕ) (bu : Bundle)
    (hfind : db.bundles.find? (fun b => b.id == bid) = some bu) :
    (keptMembers db bid = [] →
        (removeExclusiveBeatsFromBundle db bid).2.bundleDeleted = true ∧
          ∀ b ∈ ((removeExclusiveBeatsFromBundle db bid).1).bundles, b.id ≠ bid) ∧
      (keptMembers db bid ≠ [] →
        (removeExclusiveBeatsFromBundle db bid).2.bundleUpdated = true ∧
          ∃ bu' ∈ ((removeExclusiveBeatsFromBundle db bid).1).bundles,
            bu'.id = bid ∧
              bu'.individualPrice = ((keptMembers db bid).map fun b => b.price).sum ∧
              bu'.discountPercent = max bu.discountPercent 10 ∧
              bu'.bundlePrice = bu'.individualPrice * (1 - bu'.discountPercent / 100)) := by
  have hid : (bu.id == bid) = true := by
    have h := List.find?_some hfind
    simpa using h
  have hmem : bu ∈ db.bundles := List.mem_of_find?_eq_some hfind
  rw [removeFromBundle_found hfind]
  constructor
  · intro hempty
    rw [if_pos (by rw [List.isEmpty_iff]; exact hempty)]
    refine ⟨rfl, ?_⟩
    intro b hb
    simpa using (List.mem_filter.mp hb).2
  · intro hne
    rw [if_neg (by rw [List.isEmpty_iff]; exact hne)]
    refine ⟨rfl, repriceBundle db bid bu bu, List.mem_map_of_mem _ hmem, ?_⟩
    unfold repriceBundle
    rw [if_pos hid]
    exact ⟨by simpa using hid, rfl, rfl, rfl⟩

/-- Fixture: the Summer Pack scenario of the spec — members A (exclusive,
price 30), B (40), C (30); individual price 100, discount 20 percent,
bundle price 80. -/
def wSummerDb : DB :=
  ⟨[⟨1, "A", 30, true⟩, ⟨2, "B", 40, false⟩, ⟨3, "C", 30, false⟩],
    [⟨1, "Summer Pack", 100, 80, 20, true⟩], [⟨1, 1⟩, ⟨1, 2⟩, ⟨1, 3⟩], []⟩

theorem c4_bundle_cleanup_recompute_witness :
    wSummerDb.bundles.find? (fun b => b.id == 1) =
        some ⟨1, "Summer Pack", 100, 80, 20, true⟩ ∧
      keptMembers wSummerDb 1 ≠ [] ∧
      ((removeExclusiveBeatsFromBundle wSummerDb 1).2.bundleUpdated = true ∧
        ∃ bu' ∈ ((removeExclusiveBeatsFromBundle wSummerDb 1).1).bundles,
          bu'.id = 1 ∧
            bu'.individualPrice = ((keptMembers wSummerDb 1).map fun b => b.price).sum ∧
            bu'.discountPercent = max (20 : ℚ) 10 ∧
            bu'.bundlePrice = bu'.individualPrice * (1 - bu'.discountPercent / 100)) ∧
      (removeExclusiveBeatsFromBundle wSummerDb 1).1.bundles =
        [⟨1, "Summer Pack", 70, 56, 20, true⟩] :=
  ⟨by decide, by decide,
    (c4_bundle_cleanup_recompute wSummerDb 1 ⟨1, "Summer Pack", 100, 80, 20, true⟩
      (by decide)).2 (by decide),
    by norm_num [removeExclusiveBeatsFromBundle, keptMembers, exclMembers, exclMemberIds,
      strippedBeats, strippedRels, repriceBundle, newIndividualPrice, newDiscountOf,
      beatsInBundle, hasRel, wSummerDb]⟩

/-- The pricing invariant stated by the spec (sections 3 and 8):
`individual_price` is the sum of the prices of the current members of the
bundle, and `bundle_price = individual_price *
(1 - discount_percent / 100)`. -/
def bundlePricingConsistent (db : DB) (bu : Bundle) : Prop :=
  bu.individualPrice = ((beatsInBundle db bu.id).map fun b => b.price).sum ∧
    bu.bundlePrice = bu.individualPrice * (1 - bu.discountPercent / 100)

/-- Fixture: bundle 1 "Pack" holds exclusive beat 7 "Solo" (30) and
non-exclusive beat 8 "Keep" (40); its pricing is consistent
(70 = 30 + 40, 56 = 70 times 0.8). -/
def wPackDb : DB :=
  ⟨[⟨7, "Solo", 30, true⟩, ⟨8, "Keep", 40, false⟩],
    [⟨1, "Pack", 70, 56, 20, true⟩], [⟨1, 7⟩, ⟨1, 8⟩], []⟩

/-- C6 counterexample: `remove_exclusive_beat_by_title` — the cleanup run
when an exclusive item sells standalone — deletes the membership rows of
beat 7 from bundle 1 but never reprices any bundle, so bundle 1 keeps
`individual_price = 70` and `bundle_price = 56` while its only remaining
member sums to 40: the invariant is NOT re-established on this
membership change, refuting the claim that it is re-established whenever
membership changes. -/
theorem c6_standalone_sale_leaves_stale_pricing :
    bundlePricingConsistent wPackDb ⟨1, "Pack", 70, 56, 20, true⟩ ∧
      (removeExclusiveBeatByTitle wPackDb "Solo").1.bundles =
        [⟨1, "Pack", 70, 56, 20, true⟩] ∧
      (removeExclusiveBeatByTitle wPackDb "Solo").1.bundleBeats = [⟨1, 8⟩] ∧
      ¬ bundlePricingConsistent (removeExclusiveBeatByTitle wPackDb "Solo").1
          ⟨1, "Pack", 70, 56, 20, true⟩ := by
  refine ⟨⟨?_, ?_⟩, by decide, by decide, ?_⟩
  · norm_num [beatsInBundle, hasRel, wPackDb]
  · norm_num
  · intro hcon
    have h1 := hcon.1
    rw [show (removeExclusiveBeatByTitle wPackDb "Solo").1 =
        ⟨[⟨8, "Keep", 40, false⟩], [⟨1, "Pack", 70, 56, 20, true⟩], [⟨1, 8⟩], []⟩
      from by decide] at h1
    norm_num [beatsInBundle, hasRel] at h1

theorem hasRel_filter (rels : List BundleBeat) (ids : List ℕ) (bid x : ℕ) :
    hasRel (rels.filter fun r => !(ids.contains r.beatId)) bid x =
      (hasRel rels bid x && !(ids.contains x)) := by
  apply Bool.coe_iff_coe.mp
  unfold hasRel
  simp only [List.any_eq_true, List.mem_filter, Bool.and_eq_true, Bool.not_eq_true',
    beq_iff_eq]
  constructor
  · rintro ⟨r, ⟨hrm, hrk⟩, hbid, hbx⟩
    exact ⟨⟨r, hrm, hbid, hbx⟩, hbx ▸ hrk⟩
  · rintro ⟨⟨r, hrm, hbid, hbx⟩, hcx⟩
    exact ⟨r, ⟨hrm, hbx ▸ hcx⟩, hbid, hbx⟩

theorem exclMemberIds_contains (db : DB) (bid : ℕ) (b : Beat)
    (hb : b ∈ db.beats)
    (hnodup : (db.beats.map fun x => x.id).Nodup) :
    (exclMemberIds db bid).contains b.id =
      (hasRel db.bundleBeats bid b.id && b.isExclusive) := by
  cases h : hasRel db.bundleBeats bid b.id && b.isExclusive with
  | true =>
    obtain ⟨hrel, hexcl⟩ := (Bool.and_eq_true ..).mp h
    have hbm : b ∈ exclMembers db bid := by
      unfold exclMembers beatsInBundle
      exact List.mem_filter.mpr ⟨List.mem_filter.mpr ⟨hb, hrel⟩, hexcl⟩
    exact List.elem_iff.mpr (List.mem_map_of_mem _ hbm)
  | false =>
    cases hc : (exclMemberIds db bid).contains b.id with
    | false => rfl
    | true =>
      exfalso
      have hmem := List.elem_iff.mp hc
      obtain ⟨e, he, heid⟩ := List.mem_map.mp hmem
      have he1 : e ∈ beatsInBundle db bid ∧ e.isExclusive = true :=
        List.mem_filter.mp he
      have he2 : e ∈ db.beats ∧ hasRel db.bundleBeats bid e.id = true :=
        List.mem_filter.mp he1.1
      have heb : e = b :=
        List.inj_on_of_nodup_map hnodup he2.1 hb heid
      rw [heb] at he2 he1
      rw [he2.2, he1.2] at h
      exact Bool.noConfusion h

theorem beatsInBundle_stripped (db : DB) (bid : ℕ) (bs : List Bundle)
    (os : List Order)
    (hnodup : (db.beats.map fun b => b.id).Nodup) :
    beatsInBundle ⟨strippedBeats db bid, bs, strippedRels db bid, os⟩ bid =
      keptMembers db bid := by
  show (strippedBeats db bid).filter
      (fun b => hasRel (strippedRels db bid) bid b.id) = keptMembers db bid
  unfold strippedBeats strippedRels keptMembers beatsInBundle
  rw [List.filter_filter, List.filter_filter]
  apply List.filter_congr
  intro b hb
  rw [hasRel_filter, exclMemberIds_contains db bid b hb hnodup]
  cases hasRel db.bundleBeats bid b.id <;> cases b.isExclusive <;> rfl

/-- C6 amended: the pricing invariant is re-established only by the
bundle-purchase cleanup (`remove_exclusive_beats_from_bundle`) and only
for the purchased bundle: when non-exclusive members remain, the updated
bundle row again satisfies `individual_price = sum of current member
prices` and `bundle_price = individual_price *
(1 - discount_percent / 100)` (assuming distinct beat primary keys).  The
standalone-sale cleanup (`remove_exclusive_beat_by_title`), by contrast,
deletes membership rows in every bundle but changes no bundle row at all,
so bundles that lose a member on that path are not repriced. -/
theorem c6_amended_repricing_scope
    (db : DB) (bid : ℕ) (bu : Bundle)
    (hfind : db.bundles.find? (fun b => b.id == bid) = some bu)
    (hnodup : (db.beats.map fun b => b.id).Nodup)
    (hne : keptMembers db bid ≠ []) :
    (∀ (d : DB) (t : String), ((removeExclusiveBeatByTitle d t).1).bundles = d.bundles) ∧
      ∃ bu' ∈ ((removeExclusiveBeatsFromBundle db bid).1).bundles,
        bu'.id = bid ∧
          bundlePricingConsistent ((removeExclusiveBeatsFromBundle db bid).1) bu' := by
  refine ⟨fun d t => bundles_removeExclusiveBeatByTitle d t, ?_⟩
  have hid : (bu.id == bid) = true := by
    have h := List.find?_some hfind
    simpa using h
  have hmem : bu ∈ db.bundles := List.mem_of_find?_eq_some hfind
  rw [removeFromBundle_found hfind, if_neg (by rw [List.isEmpty_iff]; exact hne)]
  refine ⟨repriceBundle db bid bu bu, List.mem_map_of_mem _ hmem, ?_, ?_, ?_⟩
  · unfold repriceBundle
    rw [if_pos hid]
    simpa using hid
  · show (repriceBundle db bid bu bu).individualPrice =
      ((beatsInBundle _ (repriceBundle db bid bu bu).id).map fun b => b.price).sum
    have hbid : (repriceBundle db bid bu bu).id = bid := by
      unfold repriceBundle
      rw [if_pos hid]
      simpa using hid
    rw [hbid, beatsInBundle_stripped db bid _ _ hnodup]
    unfold repriceBundle
    rw [if_pos hid]
    rfl
  · show (repriceBundle db bid bu bu).bundlePrice =
      (repriceBundle db bid bu bu).individualPrice *
        (1 - (repriceBundle db bid bu bu).discountPercent / 100)
    unfold repriceBundle
    rw [if_pos hid]

theorem c6_amended_repricing_scope_witness :
    wPackDb.bundles.find? (fun b => b.id == 1) = some ⟨1, "Pack", 70, 56, 20, true⟩ ∧
      (wPackDb.beats.map fun b => b.id).Nodup ∧
      keptMembers wPackDb 1 ≠ [] ∧
      ((∀ (d : DB) (t : String),
          ((removeExclusiveBeatByTitle d t).1).bundles = d.bundles) ∧
        ∃ bu' ∈ ((removeExclusiveBeatsFromBundle wPackDb 1).1).bundles,
          bu'.id = 1 ∧
            bundlePricingConsistent ((removeExclusiveBeatsFromBundle wPackDb 1).1) bu') :=
  ⟨by decide, by decide, by decide,
    c6_amended_repricing_scope wPackDb 1 ⟨1, "Pack", 70, 56, 20, true⟩
      (by decide) (by decide) (by decide)⟩

theorem splitCh_cons_ne (c a : Char) (as : List Char) (h : ¬ a = c) :
    splitCh c (a :: as) =
      match splitCh c as with
      | [] => [[a]]
      | p :: ps => (a :: p) :: ps := by
  conv_lhs => rw [splitCh]
  rw [if_neg h]

theorem splitCh_ne_nil (c : Char) (l : List Char) : splitCh c l ≠ [] := by
  cases l with
  | nil => simp [splitCh]
  | cons a as =>
    by_cases hac : a = c
    · conv_lhs => rw [splitCh]
      rw [if_pos hac]
      simp
    · rw [splitCh_cons_ne c a as hac]
      cases splitCh c as <;> simp

theorem splitCh_not_mem (c : Char) (l : List Char) (h : c ∉ l) :
    splitCh c l = [l] := by
  induction l with
  | nil => rfl
  | cons a as ih =>
    have ha : ¬ a = c := fun hac => h (hac ▸ List.mem_cons_self a as)
    have has : c ∉ as := fun hm => h (List.mem_cons_of_mem a hm)
    rw [splitCh_cons_ne c a as ha, ih has]

theorem splitCh_append (c : Char) (xs ys : List Char) (h : c ∉ xs) :
    splitCh c (xs ++ c :: ys) = xs :: splitCh c ys := by
  induction xs with
  | nil =>
    show splitCh c (c :: ys) = [] :: splitCh c ys
    conv_lhs => rw [splitCh]
    rw [if_pos rfl]
  | cons a as ih =>
    have ha : ¬ a = c := fun hac => h (hac ▸ List.mem_cons_self a as)
    have has : c ∉ as := fun hm => h (List.mem_cons_of_mem a hm)
    show splitCh c (a :: (as ++ c :: ys)) = (a :: as) :: splitCh c ys
    rw [splitCh_cons_ne c a _ ha, ih has]

theorem joinCh_splitCh (c : Char) (l : List Char) :
    joinCh c (splitCh c l) = l := by
  induction l with
  | nil => rfl
  | cons a as ih =>
    by_cases hac : a = c
    · rw [hac]
      have h2 : splitCh c (c :: as) = [] :: splitCh c as :=
        splitCh_append c [] as (by simp)
      rw [h2]
      cases hs : splitCh c as with
      | nil => exact absurd hs (splitCh_ne_nil c as)
      | cons p ps =>
        rw [hs] at ih
        show [] ++ c :: joinCh c (p :: ps) = c :: as
        rw [ih]
        rfl
    · rw [splitCh_cons_ne c a as hac]
      cases hs : splitCh c as with
      | nil => exact absurd hs (splitCh_ne_nil c as)
      | cons p ps =>
        rw [hs] at ih
        cases ps with
        | nil =>
          show a :: p = a :: as
          have hp : p = as := ih
          rw [hp]
        | cons q qs =>
          show (a :: p) ++ c :: joinCh c (q :: qs) = a :: as
          have hih : p ++ c :: joinCh c (q :: qs) = as := ih
          rw [← hih]
          rfl

theorem pySplit2Ch_two (xs ys : List Char) (hx : ':' ∉ xs) (hy : ':' ∉ ys) :
    pySplit2Ch (xs ++ ':' :: ys) = [xs, ys] := by
  unfold pySplit2Ch
  rw [splitCh_append ':' xs ys hx, splitCh_not_mem ':' ys hy]

theorem pySplit2Ch_three (xs ks ys : List Char) (hx : ':' ∉ xs) (hk : ':' ∉ ks) :
    pySplit2Ch (xs ++ ':' :: (ks ++ ':' :: ys)) = [xs, ks, ys] := by
  unfold pySplit2Ch
  rw [splitCh_append ':' xs _ hx, splitCh_append ':' ks ys hk]
  cases hs : splitCh ':' ys with
  | nil => exact absurd hs (splitCh_ne_nil ':' ys)
  | cons p ps =>
    have hj : joinCh ':' (p :: ps) = ys := by
      rw [← hs]
      exact joinCh_splitCh ':' ys
    show [xs, ks, joinCh ':' (p :: ps)] = [xs, ks, ys]
    rw [hj]

theorem pySplit2Ch_headD (xs ys : List Char) (hx : ':' ∉ xs) :
    (pySplit2Ch (xs ++ ':' :: ys)).headD [] = xs := by
  unfold pySplit2Ch
  rw [splitCh_append ':' xs ys hx]
  cases hs : splitCh ':' ys with
  | nil => exact absurd hs (splitCh_ne_nil ':' ys)
  | cons p ps => cases ps <;> rfl

theorem tokenCond (xs ys : List Char) :
    (!(xs ++ ':' :: ys).isEmpty && (xs ++ ':' :: ys).contains ':') = true := by
  rw [Bool.and_eq_true]
  constructor
  · cases xs <;> rfl
  · exact List.elem_iff.mpr (List.mem_append_right xs (List.mem_cons_self ':' ys))

theorem parseToken_two (xs ys : List Char) (bundles : List Bundle) :
    parseToken [xs, ys] bundles =
      (match pyInt? xs with
        | some uid => ⟨some uid, some (String.mk (replU ys)), none, "beat"⟩
        | none => ⟨none, none, none, "beat"⟩) := rfl

theorem parseToken_three (xs ks ys : List Char) (bundles : List Bundle) :
    parseToken [xs, ks, ys] bundles =
      (match pyInt? xs with
        | some uid =>
          ⟨some uid, some (String.mk (replU ys)),
            (if String.mk ks == "bundle" then
              (bundles.find? fun b =>
                b.name == String.mk (replU ys) && b.isActive).map fun b => b.id
             else none), String.mk ks⟩
        | none => ⟨none, none, none, "beat"⟩) := rfl

theorem parseCustomId_some (s : String) (bundles : List Bundle)
    (hcond : (!s.data.isEmpty && s.data.contains ':') = true) :
    parseCustomId (some s) bundles = parseToken (pySplit2Ch s.data) bundles := by
  show (if (!s.data.isEmpty && s.data.contains ':') = true then
      parseToken (pySplit2Ch s.data) bundles
    else ⟨none, none, none, "beat"⟩) = parseToken (pySplit2Ch s.data) bundles
  rw [if_pos hcond]

theorem resolveCustomId_direct (res : Resource) (lk : OrderLookup)
    (h1 : truthyS (pyOr res.customId res.referenceId) = true) :
    resolveCustomId res lk = (pyOr res.customId res.referenceId, false) := by
  unfold resolveCustomId
  dsimp only
  rw [h1]
  rfl

theorem resolveCustomId_fromOrder (res : Resource) (lk : OrderLookup)
    (h1 : truthyS (pyOr res.customId res.referenceId) = false)
    (h2 : truthyS res.orderId = true)
    (h3 : truthyS (getCustomIdFromOrder lk) = true) :
    resolveCustomId res lk = (getCustomIdFromOrder lk, false) := by
  unfold resolveCustomId
  dsimp only
  rw [h1, h2, h3]
  rfl

theorem resolveCustomId_pu (res : Resource) (lk : OrderLookup)
    (h1 : truthyS (pyOr res.customId res.referenceId) = false)
    (h2 : truthyS res.orderId = false) :
    resolveCustomId res lk = (puToken res, false) := by
  unfold resolveCustomId
  dsimp only
  rw [h1, h2]
  rfl

theorem resolveCustomId_sim (res : Resource) (lk : OrderLookup)
    (h1 : truthyS (pyOr res.customId res.referenceId) = false)
    (h2 : truthyS res.orderId = true)
    (h3 : truthyS (getCustomIdFromOrder lk) = false) :
    resolveCustomId res lk = (puToken res, true) := by
  unfold resolveCustomId
  dsimp only
  rw [h1, h2, h3]
  rfl

/-- C7: event resolution.  Conjuncts 1-4: the correlation token is taken,
in order, from the payment resource itself, then from the provider order
fetched via the supplementary order id, then from the first purchase-unit
entry (a failed order lookup also falls through to the purchase units and
raises the simulation flag).  Conjunct 5: a two-part token with a numeric
buyer id parses with the default kind `"beat"` (the code-level name of
the item kind) and the item name decoded by replacing `_` with spaces.
Conjunct 6: a three-part token keeps its kind, and a `bundle` kind
resolves the decoded name against active bundles to a bundle id.
Conjunct 7: a non-numeric buyer id yields `(None, None, None)` with the
default kind, which the capture handler treats as invalid. -/
theorem c7_token_resolution_and_parsing
    (res : Resource) (lk : OrderLookup) (bundles : List Bundle)
    (uidStr kind name : String) (u : ℤ)
    (hu : ':' ∉ uidStr.data) (hk : ':' ∉ kind.data) :
    (truthyS (pyOr res.customId res.referenceId) = true →
      resolveCustomId res lk = (pyOr res.customId res.referenceId, false)) ∧
    (truthyS (pyOr res.customId res.referenceId) = false →
      truthyS res.orderId = true → truthyS (getCustomIdFromOrder lk) = true →
      resolveCustomId res lk = (getCustomIdFromOrder lk, false)) ∧
    (truthyS (pyOr res.customId res.referenceId) = false →
      truthyS res.orderId = false →
      resolveCustomId res lk = (puToken res, false)) ∧
    (truthyS (pyOr res.customId res.referenceId) = false →
      truthyS res.orderId = true → truthyS (getCustomIdFromOrder lk) = false →
      resolveCustomId res lk = (puToken res, true)) ∧
    (pyInt? uidStr.data = some u → ':' ∉ name.data →
      parseCustomId (some (uidStr ++ ":" ++ name)) bundles =
        ⟨some u, some (replUnderscore name), none, "beat"⟩) ∧
    (pyInt? uidStr.data = some u →
      parseCustomId (some (uidStr ++ ":" ++ kind ++ ":" ++ name)) bundles =
        ⟨some u, some (replUnderscore name),
          (if kind == "bundle" then
            (bundles.find? fun b =>
              b.name == replUnderscore name && b.isActive).map fun b => b.id
           else none), kind⟩) ∧
    (pyInt? uidStr.data = none →
      parseCustomId (some (uidStr ++ ":" ++ name)) bundles =
          ⟨none, none, none, "beat"⟩ ∧
        parsedInvalid ⟨none, none, none, "beat"⟩ = true) := by
  have hdata2 : (uidStr ++ ":" ++ name).data = uidStr.data ++ ':' :: name.data := by
    show (uidStr.data ++ [':']) ++ name.data = uidStr.data ++ ':' :: name.data
    rw [List.append_assoc]
    rfl
  have hcond2 : (!(uidStr ++ ":" ++ name).data.isEmpty &&
      (uidStr ++ ":" ++ name).data.contains ':') = true := by
    rw [hdata2]
    exact tokenCond ..
  refine ⟨resolveCustomId_direct res lk,
    resolveCustomId_fromOrder res lk,
    resolveCustomId_pu res lk,
    resolveCustomId_sim res lk, ?_, ?_, ?_⟩
  · intro hu' hn
    rw [parseCustomId_some _ _ hcond2, hdata2, pySplit2Ch_two _ _ hu hn,
      parseToken_two, hu']
    rfl
  · intro hu'
    have hdata3 : (uidStr ++ ":" ++ kind ++ ":" ++ name).data =
        uidStr.data ++ ':' :: (kind.data ++ ':' :: name.data) := by
      show (((uidStr.data ++ [':']) ++ kind.data) ++ [':']) ++ name.data =
        uidStr.data ++ ':' :: (kind.data ++ ':' :: name.data)
      simp
    have hcond3 : (!(uidStr ++ ":" ++ kind ++ ":" ++ name).data.isEmpty &&
        (uidStr ++ ":" ++ kind ++ ":" ++ name).data.contains ':') = true := by
      rw [hdata3]
      exact tokenCond ..
    rw [parseCustomId_some _ _ hcond3, hdata3, pySplit2Ch_three _ _ _ hu hk,
      parseToken_three, hu']
    rfl
  · intro hu0
    constructor
    · rw [parseCustomId_some _ _ hcond2, hdata2]
      unfold parseToken
      dsimp only
      rw [pySplit2Ch_headD _ _ hu, hu0]
    · rfl

/-- Fixture: one active bundle named "Hot Pack". -/
def wHotPack : Bundle := ⟨3, "Hot Pack", 100, 80, 20, true⟩

/-- Fixture: a capture resource carrying the bundle token directly. -/
def wTokRes : Resource := ⟨some "9:bundle:Hot_Pack", none, none, []⟩

theorem c7_token_resolution_and_parsing_witness :
    (':' ∉ ("9" : String).data) ∧ (':' ∉ ("bundle" : String).data) ∧
    ((truthyS (pyOr wTokRes.customId wTokRes.referenceId) = true →
      resolveCustomId wTokRes .notFound =
        (pyOr wTokRes.customId wTokRes.referenceId, false)) ∧
    (truthyS (pyOr wTokRes.customId wTokRes.referenceId) = false →
      truthyS wTokRes.orderId = true →
      truthyS (getCustomIdFromOrder .notFound) = true →
      resolveCustomId wTokRes .notFound = (getCustomIdFromOrder .notFound, false)) ∧
    (truthyS (pyOr wTokRes.customId wTokRes.referenceId) = false →
      truthyS wTokRes.orderId = false →
      resolveCustomId wTokRes .notFound = (puToken wTokRes, false)) ∧
    (truthyS (pyOr wTokRes.customId wTokRes.referenceId) = false →
      truthyS wTokRes.orderId = true →
      truthyS (getCustomIdFromOrder .notFound) = false →
      resolveCustomId wTokRes .notFound = (puToken wTokRes, true)) ∧
    (pyInt? ("9" : String).data = some 9 → ':' ∉ ("Hot_Pack" : String).data →
      parseCustomId (some ("9" ++ ":" ++ "Hot_Pack")) [wHotPack] =
        ⟨some 9, some (replUnderscore "Hot_Pack"), none, "beat"⟩) ∧
    (pyInt? ("9" : String).data = some 9 →
      parseCustomId (some ("9" ++ ":" ++ "bundle" ++ ":" ++ "Hot_Pack")) [wHotPack] =
        ⟨some 9, some (replUnderscore "Hot_Pack"),
          (if ("bundle" : String) == "bundle" then
            ([wHotPack].find? fun b =>
              b.name == replUnderscore "Hot_Pack" && b.isActive).map fun b => b.id
           else none), "bundle"⟩) ∧
    (pyInt? ("9" : String).data = none →
      parseCustomId (some ("9" ++ ":" ++ "Hot_Pack")) [wHotPack] =
          ⟨none, none, none, "beat"⟩ ∧
        parsedInvalid ⟨none, none, none, "beat"⟩ = true)) :=
  ⟨by decide, by decide,
    c7_token_resolution_and_parsing wTokRes .notFound [wHotPack] "9" "bundle"
      "Hot_Pack" 9 (by decide) (by decide)⟩

/-- Fixture: a capture resource with no token anywhere and a
supplementary order id, forcing the order lookup. -/
def wNoTokRes : Resource := ⟨none, none, some "ORD-1", []⟩

/-- C5 counterexample: the claim says the sentinel is assigned only when
the provider order lookup explicitly reported "order not found" (404), as
opposed to a lookup error.  But `get_custom_id_from_order` returns `None`
on every failure and the caller sets the simulation flag on any falsy
return, so a token-fetch failure, a non-404 HTTP error, and a network
exception all produce the sentinel as well — here evaluated at a network
exception, which is not the not-found outcome. -/
theorem c5_sentinel_assigned_on_lookup_error :
    parsePaymentData wNoTokRes .exc [] = sentinelParsed ∧
      OrderLookup.exc ≠ OrderLookup.notFound ∧
      parsePaymentData wNoTokRes .tokenFetchFail [] = sentinelParsed ∧
      parsePaymentData wNoTokRes (.httpError 500) [] = sentinelParsed := by
  exact ⟨by decide, by decide, by decide, by decide⟩

/-- C5 amended: the sentinel buyer id 12345 and sentinel title are
assigned whenever (a) no truthy token sits on the resource, (b) a
supplementary order id is present so the order lookup runs, (c) the
lookup yields no truthy token — for any reason: explicit not-found,
token-fetch failure, non-404 HTTP error, network exception, or an order
without token fields — and (d) the purchase-unit fallback parses to no
buyer id or no title.  Settlement then proceeds with the sentinel data
rather than rejecting: the parsed result passes the validity check of the
capture handler. -/
theorem c5_amended_sentinel_on_any_failed_lookup
    (res : Resource) (lk : OrderLookup) (bundles : List Bundle)
    (h1 : truthyS (pyOr res.customId res.referenceId) = false)
    (h2 : truthyS res.orderId = true)
    (h3 : truthyS (getCustomIdFromOrder lk) = false)
    (h4 : (parseCustomId (puToken res) bundles).userId = none ∨
      (parseCustomId (puToken res) bundles).beatTitle = none) :
    parsePaymentData res lk bundles = sentinelParsed ∧
      parsedInvalid sentinelParsed = false := by
  constructor
  · unfold parsePaymentData
    rw [resolveCustomId_sim res lk h1 h2 h3]
    dsimp only
    have hc : ((parseCustomId (puToken res) bundles).userId.isNone ||
        (parseCustomId (puToken res) bundles).beatTitle.isNone) = true := by
      rcases h4 with h | h <;> simp [h]
    rw [Bool.true_and, hc]
    rfl
  · rfl

theorem c5_amended_sentinel_on_any_failed_lookup_witness :
    truthyS (pyOr wNoTokRes.customId wNoTokRes.referenceId) = false ∧
      truthyS wNoTokRes.orderId = true ∧
      truthyS (getCustomIdFromOrder .exc) = false ∧
      ((parseCustomId (puToken wNoTokRes) []).userId = none ∨
        (parseCustomId (puToken wNoTokRes) []).beatTitle = none) ∧
      (parsePaymentData wNoTokRes .exc [] = sentinelParsed ∧
        parsedInvalid sentinelParsed = false) :=
  ⟨by decide, by decide, by decide, Or.inl (by decide),
    c5_amended_sentinel_on_any_failed_lookup wNoTokRes .exc []
      (by decide) (by decide) (by decide) (Or.inl (by decide))⟩
